import Mathlib

/-!
Shallow embedding of `src/app.py`, a command-line utility that applies
fixed configuration updates to Zoom webinars across one or more accounts.

The external boundaries are modelled as follows:

* The ruamel YAML parser (`yaml.load`) is an external library; its result is
  modelled by the inductive type `Yaml` of parsed YAML values, and
  `Account.from_yaml_text` takes this parsed value as input.
* Python's dynamic-typing failures (`TypeError`, `KeyError`) are modelled by
  `Except PyError`; the helpers `pyIter`, `pyGetItem` and `pyStr` embed the
  Python semantics of iteration, string-key subscription and `str()`.
* The HTTP client (`requests.patch`) and the console are external effects;
  each operation function returns the ordered trace of effects (`Event`) it
  performs, with the HTTP status codes of the responses supplied by an
  oracle `statuses : String → Int` mapping each request URL to the status
  code the remote API returns for it.
-/

/-- A parsed YAML value, the result of `yaml.load` (safe mode): scalars,
sequences and mappings with string keys, as produced by the configuration
files this program reads. -/
inductive Yaml where
  | null
  | bool (b : Bool)
  | int (n : Int)
  | str (s : String)
  | list (xs : List Yaml)
  | map (kvs : List (String × Yaml))
  deriving Repr

/-- A Python runtime error raised by the embedded code. -/
inductive PyError where
  | typeError (msg : String)
  | keyError (key : String)
  deriving Repr, DecidableEq

/-- First-match lookup in an association list, the semantics of Python
`dict` subscription for the string-keyed mappings appearing here. -/
def assocLookup (k : String) : List (String × Yaml) → Option Yaml
  | [] => none
  | kv :: rest => if kv.1 = k then some kv.2 else assocLookup k rest

mutual

/-- Python `repr()` on a parsed YAML value (simplified: no escaping inside
string contents). -/
def pyRepr : Yaml → String
  | .null => "None"
  | .bool true => "True"
  | .bool false => "False"
  | .int n => toString n
  | .str s => "\x27" ++ s ++ "\x27"
  | .list xs => "[" ++ pyReprList xs ++ "]"
  | .map kvs => "\x7b" ++ pyReprMap kvs ++ "\x7d"

/-- Comma-separated `repr()` of the elements of a Python list. -/
def pyReprList : List Yaml → String
  | [] => ""
  | [x] => pyRepr x
  | x :: xs => pyRepr x ++ ", " ++ pyReprList xs

/-- Comma-separated `repr()` of the entries of a Python dict. -/
def pyReprMap : List (String × Yaml) → String
  | [] => ""
  | [kv] => "\x27" ++ kv.1 ++ "\x27: " ++ pyRepr kv.2
  | kv :: kvs => "\x27" ++ kv.1 ++ "\x27: " ++ pyRepr kv.2 ++ ", " ++ pyReprMap kvs

end

/-- Python `str()` on a parsed YAML value: identity on strings, `repr()`
otherwise.  This is what f-string interpolation and `str.format` apply. -/
def pyStr : Yaml → String
  | .str s => s
  | v => pyRepr v

/-- Python iteration `for x in v`: lists yield their elements, strings their
characters, dicts their keys; `None`, booleans and numbers raise
`TypeError`. -/
def pyIter : Yaml → Except PyError (List Yaml)
  | .list xs => .ok xs
  | .str s => .ok (s.toList.map fun c => Yaml.str (String.mk [c]))
  | .map kvs => .ok (kvs.map fun kv => Yaml.str kv.1)
  | .null => .error (.typeError "NoneType object is not iterable")
  | .bool _ => .error (.typeError "bool object is not iterable")
  | .int _ => .error (.typeError "int object is not iterable")

/-- Python subscription `v[k]` with a string key `k`: succeeds only on a
dict containing the key (`KeyError` if the key is absent, `TypeError` on
every non-dict value). -/
def pyGetItem (v : Yaml) (k : String) : Except PyError Yaml :=
  match v with
  | .map kvs =>
    match assocLookup k kvs with
    | some w => .ok w
    | none => .error (.keyError k)
  | .list _ => .error (.typeError "list indices must be integers or slices, not str")
  | .str _ => .error (.typeError "string indices must be integers")
  | .null => .error (.typeError "NoneType object is not subscriptable")
  | .bool _ => .error (.typeError "bool object is not subscriptable")
  | .int _ => .error (.typeError "int object is not subscriptable")

/-- `Account` from `src/app.py`: one credentialed account.  The constructor
stores whatever values the configuration supplied — the Python code performs
no type validation, so both fields hold arbitrary parsed YAML values. -/
structure Account where
  token : Yaml
  webinar_ids : Yaml
  deriving Repr

/-- `Account.headers` (src/app.py lines 15–20): the authorization headers
mapping, recomputed on each access from the stored token. -/
def Account.headers (a : Account) : List (String × String) :=
  [("authorization", "Bearer " ++ pyStr a.token),
   ("content-type", "application/json")]

/-- The accumulation loop of `Account.from_yaml_text` (src/app.py lines
27–29): for each parsed record, subscript it by `"token"` and
`"webinar-ids"` and construct one `Account`; the first failing subscription
aborts with its error. -/
def accountsOf : List Yaml → Except PyError (List Account)
  | [] => .ok []
  | acc :: rest => do
    let tok ← pyGetItem acc "token"
    let wids ← pyGetItem acc "webinar-ids"
    let others ← accountsOf rest
    pure (Account.mk tok wids :: others)

/-- `Account.from_yaml_text` (src/app.py lines 22–31).  The YAML parsing
step `yaml.load(content)` is the external library boundary; `res` is its
result, and this function embeds the iteration and field extraction the
source performs on it. -/
def Account.from_yaml_text (res : Yaml) : Except PyError (List Account) := do
  let items ← pyIter res
  accountsOf items

/-- `ZOOM_API_BASE_URL` (src/app.py line 34). -/
def ZOOM_API_BASE_URL : String := "https://api.zoom.us/v2"

/-- A JSON value, as sent in a request body (Python dicts keep insertion
order, so object fields are an ordered list of pairs). -/
inductive Json where
  | null
  | bool (b : Bool)
  | num (n : Int)
  | str (s : String)
  | arr (xs : List Json)
  | obj (kvs : List (String × Json))
  deriving Repr

/-- The `payload` dict of `update_cots2021_registration_questions`
(src/app.py lines 44–75). -/
def registration_questions_payload : Json :=
  .obj
    [("questions", .arr
       [.obj [("field_name", .str "last_name"), ("required", .bool true)],
        .obj [("field_name", .str "org"), ("required", .bool true)],
        .obj [("field_name", .str "job_title"), ("required", .bool true)]]),
     ("custom_questions", .arr
       [.obj
         [("title", .str "Where do you learn about COTS 2021?"),
          ("type", .str "multiple"),
          ("required", .bool true),
          ("answers", .arr
            [.str "Facebook", .str "Instagram", .str "Twitter", .str "Email",
             .str "Newsletters", .str "Friends", .str "Other"])]])]

/-- The `payload` dict of `update_cots20201_email_settings` (src/app.py
lines 94–101). -/
def email_settings_payload : Json :=
  .obj
    [("settings", .obj
       [("attendees_and_panelists_reminder_email_notification", .obj
          [("enable", .bool true), ("type", .num 7)])])]

/-- The `payload` dict of `update_qa` (src/app.py lines 120–130). -/
def qa_settings_payload : Json :=
  .obj
    [("settings", .obj
       [("question_and_answer", .obj
          [("enable", .bool true),
           ("allow_anonymous_questions", .bool false),
           ("answer_questions", .str "all"),
           ("attendees_can_upvote", .bool true),
           ("attendees_can_comment", .bool true)])])]

/-- The `payload` dict of `create_poll` (src/app.py lines 149–154). -/
def create_poll_payload : Json :=
  .obj
    [("title", .str "Where are you attending this panel from?"),
     ("anonymous", .bool false),
     ("poll_type", .num 1),
     ("questions", .arr
       [.obj [("name", .str ""), ("type", .str "single"),
              ("answers", .arr [.str "A", .str "B"])]])]

/-- One observable external effect performed by the program: a console
line, an HTTP request (method, URL, JSON body, headers), or a sleep. -/
inductive Event where
  | print (s : String)
  | request (method : String) (url : String) (body : Json)
      (headers : List (String × String))
  | sleep (secs : Nat)
  deriving Repr

/-- The body of the `for wid in account.webinar_ids` loop shared verbatim by
all four operation functions (e.g. src/app.py lines 77–85): per webinar id,
print the progress line, issue one `requests.patch` with the operation's
fixed payload and the account's headers, print the response status code,
sleep 5 seconds, and continue unconditionally with the next id.  `progress`
and `url` are the operation's f-string and path template applied to
`str(wid)`; `statuses` gives the status code the remote API returns for
each URL. -/
def patchLoop (progress : String → String) (url : String → String)
    (payload : Json) (hdrs : List (String × String))
    (statuses : String → Int) : List Yaml → List Event
  | [] => []
  | wid :: rest =>
    .print (progress (pyStr wid)) ::
    .request "PATCH" (url (pyStr wid)) payload hdrs ::
    .print (toString (statuses (url (pyStr wid)))) ::
    .sleep 5 ::
    patchLoop progress url payload hdrs statuses rest

/-- `update_cots2021_registration_questions` (src/app.py lines 37–85). -/
def update_cots2021_registration_questions (statuses : String → Int)
    (account : Account) : Except PyError (List Event) := do
  let wids ← pyIter account.webinar_ids
  pure (patchLoop
    (fun wid => "Updating registration questions for " ++ wid ++ " ...")
    (fun wid => ZOOM_API_BASE_URL ++ "/webinars/" ++ wid ++ "/registrants/questions")
    registration_questions_payload account.headers statuses wids)

/-- `update_cots20201_email_settings` (src/app.py lines 88–111). -/
def update_cots20201_email_settings (statuses : String → Int)
    (account : Account) : Except PyError (List Event) := do
  let wids ← pyIter account.webinar_ids
  pure (patchLoop
    (fun wid => "Update email settings for " ++ wid ++ " ...")
    (fun wid => ZOOM_API_BASE_URL ++ "/webinars/" ++ wid)
    email_settings_payload account.headers statuses wids)

/-- `update_qa` (src/app.py lines 114–140). -/
def update_qa (statuses : String → Int) (account : Account) :
    Except PyError (List Event) := do
  let wids ← pyIter account.webinar_ids
  pure (patchLoop
    (fun wid => "Update q&a settings for " ++ wid ++ " ...")
    (fun wid => ZOOM_API_BASE_URL ++ "/webinars/" ++ wid)
    qa_settings_payload account.headers statuses wids)

/-- `create_poll` (src/app.py lines 143–163); defined in the source but
never invoked by the dispatcher. -/
def create_poll (statuses : String → Int) (account : Account) :
    Except PyError (List Event) := do
  let wids ← pyIter account.webinar_ids
  pure (patchLoop
    (fun wid => "Update email settings for " ++ wid ++ " ...")
    (fun wid => ZOOM_API_BASE_URL ++ "/webinars/" ++ wid ++ "/polls")
    create_poll_payload account.headers statuses wids)

/-- The outcome of one run of the `__main__` block: an explicit `sys.exit`
with a code, termination by an uncaught Python exception, or normal
completion (process exit code 0).  Each outcome carries the ordered trace
of effects performed before it. -/
inductive RunOutcome where
  | exited (code : Nat) (events : List Event)
  | uncaught (events : List Event) (err : PyError)
  | completed (events : List Event)
  deriving Repr

/-- The trace of effects a run performed, regardless of how it ended. -/
def RunOutcome.events : RunOutcome → List Event
  | .exited _ evs => evs
  | .uncaught evs _ => evs
  | .completed evs => evs

/-- The `op` choices accepted by the argument parser (src/app.py lines
175–180). -/
def opChoices : List String :=
  ["update-registration-question", "update-email-setting", "create-poll",
   "update-qa-setting"]

/-- The error message printed when the configuration file is missing
(src/app.py lines 191–193); a fixed literal naming `./config.yaml`. -/
def missingConfigMsg : String :=
  "[error] Cannot find a configuration file. We expected it to be at ./config.yaml"

/-- The per-account invocation loop of the dispatcher (e.g. src/app.py
lines 204–205): run the selected operation function on each account in
order, concatenating the traces; an uncaught exception from one account
stops the remaining ones.  (In this embedding an operation function fails
only before performing any effect, when its webinar-id iteration raises.) -/
def runAccounts (f : Account → Except PyError (List Event)) :
    List Account → List Event × Option PyError
  | [] => ([], none)
  | a :: rest =>
    match f a with
    | .error e => ([], some e)
    | .ok evs =>
      let (evs2, err) := runAccounts f rest
      (evs ++ evs2, err)

/-- Wrap the trace accumulated inside the `with` block into the final run
outcome: an uncaught exception carries the effects performed before it. -/
def finishRun (pre : List Event) : List Event × Option PyError → RunOutcome
  | (evs, none) => .completed (pre ++ evs)
  | (evs, some e) => .uncaught (pre ++ evs) e

/-- The `__main__` block of `src/app.py` (lines 166–220) after argument
parsing.  `op` and `config` are the parsed CLI arguments; the filesystem is
modelled by `configExists` (whether the resolved path exists) and `loaded`
(the YAML value the parser produces from the file text); `statuses` is the
remote API's status code per request URL.  If the path does not exist the
fixed error message is printed and the process exits with code 1; otherwise
the accounts are loaded, their count is printed, and the branch matching
`op` runs — the `create-poll` branch loops over the accounts doing nothing
(its call is commented out in the source). -/
def mainRun (op : String) (config : String) (configExists : Bool)
    (loaded : Yaml) (statuses : String → Int) : RunOutcome :=
  if configExists = false then
    .exited 1 [.print missingConfigMsg]
  else
    match Account.from_yaml_text loaded with
    | .error e => .uncaught [] e
    | .ok accounts =>
      let found := Event.print ("Found " ++ toString accounts.length ++ " account(s)")
      if op = "update-registration-question" then
        finishRun [found, .print "Updating registration questions"]
          (runAccounts (update_cots2021_registration_questions statuses) accounts)
      else if op = "update-email-setting" then
        finishRun [found, .print "Updating email setting"]
          (runAccounts (update_cots20201_email_settings statuses) accounts)
      else if op = "create-poll" then
        .completed [found, .print "Creating poll"]
      else if op = "update-qa-setting" then
        finishRun [found, .print "Updating Q&A setting"]
          (runAccounts (update_qa statuses) accounts)
      else
        .completed [found]

/-- The sublist of HTTP requests in a trace, in order. -/
def requestsOf : List Event → List Event
  | [] => []
  | e :: rest =>
    match e with
    | .request m u b h => .request m u b h :: requestsOf rest
    | _ => requestsOf rest

/-- The trace of a successful operation-function call ([] on failure). -/
def okEvents : Except PyError (List Event) → List Event
  | .ok evs => evs
  | .error _ => []

/-- The JSON body of a request event (`Json.null` for other events). -/
def Event.body : Event → Json
  | .request _ _ b _ => b
  | _ => .null

/-- The canonical well-formed configuration record of §6 of the spec:
a mapping with a string `token` and a sequence-of-strings `webinar-ids`. -/
def configRecord (r : String × List String) : Yaml :=
  Yaml.map [("token", Yaml.str r.1), ("webinar-ids", Yaml.list (r.2.map Yaml.str))]

/-- The Account produced from one canonical configuration record. -/
def accountOfRecord (r : String × List String) : Account :=
  Account.mk (Yaml.str r.1) (Yaml.list (r.2.map Yaml.str))

theorem pyGetItem_configRecord_token (r : String × List String) :
    pyGetItem (configRecord r) "token" = .ok (Yaml.str r.1) := rfl

theorem pyGetItem_configRecord_wids (r : String × List String) :
    pyGetItem (configRecord r) "webinar-ids" = .ok (Yaml.list (r.2.map Yaml.str)) := rfl

theorem from_yaml_text_list (xs : List Yaml) :
    Account.from_yaml_text (Yaml.list xs) = accountsOf xs := rfl

theorem loader_ok (records : List (String × List String)) :
    Account.from_yaml_text (Yaml.list (records.map configRecord)) =
      Except.ok (records.map accountOfRecord) := by
  rw [from_yaml_text_list]
  induction records with
  | nil => rfl
  | cons r rest ih =>
    simp only [List.map_cons, accountsOf, pyGetItem_configRecord_token,
      pyGetItem_configRecord_wids, ih]
    rfl

theorem patchLoop_requests (p u : String → String) (pay : Json)
    (h : List (String × String)) (s : String → Int) (wids : List Yaml) :
    requestsOf (patchLoop p u pay h s wids) =
      wids.map fun wid => Event.request "PATCH" (u (pyStr wid)) pay h := by
  induction wids with
  | nil => rfl
  | cons w rest ih => simp [patchLoop, requestsOf, ih]

theorem patchLoop_flatten (p u : String → String) (pay : Json)
    (h : List (String × String)) (s : String → Int) (wids : List Yaml) :
    patchLoop p u pay h s wids =
      (wids.map fun wid =>
        [Event.print (p (pyStr wid)),
         Event.request "PATCH" (u (pyStr wid)) pay h,
         Event.print (toString (s (u (pyStr wid)))),
         Event.sleep 5]).flatten := by
  induction wids with
  | nil => rfl
  | cons w rest ih => simp [patchLoop, ih]

/-- C6: for every Account constructed with (string) token T, every access of
the headers accessor returns exactly the mapping
{"authorization": "Bearer T", "content-type": "application/json"}. -/
theorem C6_headers (T : String) (wids : Yaml) :
    (Account.mk (Yaml.str T) wids).headers =
      [("authorization", "Bearer " ++ T), ("content-type", "application/json")] := rfl

/-- C5: for every well-formed configuration text containing N account
records, the loader returns exactly N Account instances in record order,
the i-th Account holding the i-th record's token and webinar-ids values. -/
theorem C5_loader_wellformed (records : List (String × List String)) :
    Account.from_yaml_text (Yaml.list (records.map configRecord)) =
      Except.ok (records.map fun r =>
        Account.mk (Yaml.str r.1) (Yaml.list (r.2.map Yaml.str))) ∧
    (records.map accountOfRecord).length = records.length := by
  refine ⟨loader_ok records, List.length_map _ _⟩

/-- C10: a configuration text that parses to YAML null (for example the
empty file) makes `Account.from_yaml_text` raise (iteration over `None`)
rather than return an empty sequence of Accounts. -/
theorem C10_null_config :
    Account.from_yaml_text Yaml.null =
      Except.error (PyError.typeError "NoneType object is not iterable") ∧
    ∀ accounts : List Account,
      Account.from_yaml_text Yaml.null ≠ Except.ok accounts := by
  refine ⟨rfl, fun accounts h => ?_⟩
  exact Except.noConfusion h

/-- C7: whenever the resolved configuration file path does not exist, the
dispatcher prints an error message, exits with code 1, and issues no HTTP
request. -/
theorem C7_missing_config (op cfg : String) (loaded : Yaml)
    (statuses : String → Int) :
    mainRun op cfg false loaded statuses =
      RunOutcome.exited 1 [Event.print missingConfigMsg] ∧
    requestsOf (mainRun op cfg false loaded statuses).events = [] :=
  ⟨rfl, rfl⟩

/-- C9: the missing-configuration error message is a fixed literal naming
`./config.yaml`; it does not depend on the path supplied via `--config`. -/
theorem C9_fixed_missing_message (op cfg : String) (loaded : Yaml)
    (statuses : String → Int) :
    mainRun op cfg false loaded statuses =
      RunOutcome.exited 1 [Event.print
        "[error] Cannot find a configuration file. We expected it to be at ./config.yaml"] ∧
    ∀ cfg2 : String,
      mainRun op cfg false loaded statuses = mainRun op cfg2 false loaded statuses :=
  ⟨rfl, fun _ => rfl⟩

theorem mainRun_create_poll_ok (cfg : String) (loaded : Yaml)
    (statuses : String → Int) (accounts : List Account)
    (h : Account.from_yaml_text loaded = .ok accounts) :
    mainRun "create-poll" cfg true loaded statuses =
      RunOutcome.completed
        [Event.print ("Found " ++ toString accounts.length ++ " account(s)"),
         Event.print "Creating poll"] := by
  unfold mainRun
  rw [h]
  rfl

/-- C3: running the dispatcher with operation `create-poll` issues no HTTP
request on any configuration: the name is among the accepted choices and
its branch is selected, but the poll-creation call never runs — on a
well-formed configuration the run completes having only printed the account
count and the `Creating poll` line. -/
theorem C3_create_poll_inert (cfg : String) (configExists : Bool)
    (loaded : Yaml) (statuses : String → Int) :
    "create-poll" ∈ opChoices ∧
    requestsOf (mainRun "create-poll" cfg configExists loaded statuses).events = [] ∧
    ∀ records : List (String × List String),
      mainRun "create-poll" cfg true (Yaml.list (records.map configRecord)) statuses =
        RunOutcome.completed
          [Event.print ("Found " ++ toString records.length ++ " account(s)"),
           Event.print "Creating poll"] := by
  refine ⟨by simp [opChoices], ?_, ?_⟩
  · cases configExists with
    | false => rfl
    | true =>
      cases h : Account.from_yaml_text loaded with
      | error e =>
        unfold mainRun
        rw [h]
        rfl
      | ok accounts =>
        rw [mainRun_create_poll_ok cfg loaded statuses accounts h]
        rfl
  · intro records
    rw [mainRun_create_poll_ok cfg _ statuses _ (loader_ok records)]
    simp

theorem update_reg_on_list (statuses : String → Int) (tok : Yaml)
    (wids : List Yaml) :
    update_cots2021_registration_questions statuses (Account.mk tok (Yaml.list wids)) =
      .ok (patchLoop
        (fun wid => "Updating registration questions for " ++ wid ++ " ...")
        (fun wid => ZOOM_API_BASE_URL ++ "/webinars/" ++ wid ++ "/registrants/questions")
        registration_questions_payload (Account.mk tok (Yaml.list wids)).headers
        statuses wids) := rfl

theorem update_email_on_list (statuses : String → Int) (tok : Yaml)
    (wids : List Yaml) :
    update_cots20201_email_settings statuses (Account.mk tok (Yaml.list wids)) =
      .ok (patchLoop
        (fun wid => "Update email settings for " ++ wid ++ " ...")
        (fun wid => ZOOM_API_BASE_URL ++ "/webinars/" ++ wid)
        email_settings_payload (Account.mk tok (Yaml.list wids)).headers
        statuses wids) := rfl

theorem update_qa_on_list (statuses : String → Int) (tok : Yaml)
    (wids : List Yaml) :
    update_qa statuses (Account.mk tok (Yaml.list wids)) =
      .ok (patchLoop
        (fun wid => "Update q&a settings for " ++ wid ++ " ...")
        (fun wid => ZOOM_API_BASE_URL ++ "/webinars/" ++ wid)
        qa_settings_payload (Account.mk tok (Yaml.list wids)).headers
        statuses wids) := rfl

/-- C1: invoking an operation function on an Account with webinar ids
[w1, ..., wk] issues exactly k HTTP PATCH requests, one per id, in stored
order, each to the base URL concatenated with that operation's path
template with the id substituted (registration questions use
/webinars/id/registrants/questions; email and Q&A settings use
/webinars/id), with the account's headers attached to each request. -/
theorem C1_requests_per_id (tok : Yaml) (ws : List String)
    (statuses : String → Int) :
    (requestsOf (okEvents (update_cots2021_registration_questions statuses
        (Account.mk tok (Yaml.list (ws.map Yaml.str))))) =
      ws.map fun w => Event.request "PATCH"
        (ZOOM_API_BASE_URL ++ "/webinars/" ++ w ++ "/registrants/questions")
        registration_questions_payload
        (Account.mk tok (Yaml.list (ws.map Yaml.str))).headers) ∧
    (requestsOf (okEvents (update_cots20201_email_settings statuses
        (Account.mk tok (Yaml.list (ws.map Yaml.str))))) =
      ws.map fun w => Event.request "PATCH"
        (ZOOM_API_BASE_URL ++ "/webinars/" ++ w)
        email_settings_payload
        (Account.mk tok (Yaml.list (ws.map Yaml.str))).headers) ∧
    (requestsOf (okEvents (update_qa statuses
        (Account.mk tok (Yaml.list (ws.map Yaml.str))))) =
      ws.map fun w => Event.request "PATCH"
        (ZOOM_API_BASE_URL ++ "/webinars/" ++ w)
        qa_settings_payload
        (Account.mk tok (Yaml.list (ws.map Yaml.str))).headers) := by
  refine ⟨?_, ?_, ?_⟩
  · rw [update_reg_on_list]
    show requestsOf (patchLoop _ _ _ _ _ _) = _
    rw [patchLoop_requests, List.map_map]
    simp [pyStr]
  · rw [update_email_on_list]
    show requestsOf (patchLoop _ _ _ _ _ _) = _
    rw [patchLoop_requests, List.map_map]
    simp [pyStr]
  · rw [update_qa_on_list]
    show requestsOf (patchLoop _ _ _ _ _ _) = _
    rw [patchLoop_requests, List.map_map]
    simp [pyStr]

/-- C8: in every operation function's loop, a non-success status for one
webinar id does not prevent the next id's request: the trace for any status
oracle is, per id in order, the progress line, the PATCH request, the
printed status code, and an unconditional fixed 5-second sleep — and the
requests issued are identical under any two status oracles. -/
theorem C8_loop_unconditional (tok : Yaml) (ws : List String)
    (s1 s2 : String → Int) :
    (okEvents (update_cots2021_registration_questions s1
        (Account.mk tok (Yaml.list (ws.map Yaml.str)))) =
      (ws.map fun w =>
        [Event.print ("Updating registration questions for " ++ w ++ " ..."),
         Event.request "PATCH"
           (ZOOM_API_BASE_URL ++ "/webinars/" ++ w ++ "/registrants/questions")
           registration_questions_payload
           (Account.mk tok (Yaml.list (ws.map Yaml.str))).headers,
         Event.print (toString (s1
           (ZOOM_API_BASE_URL ++ "/webinars/" ++ w ++ "/registrants/questions"))),
         Event.sleep 5]).flatten) ∧
    (okEvents (update_cots20201_email_settings s1
        (Account.mk tok (Yaml.list (ws.map Yaml.str)))) =
      (ws.map fun w =>
        [Event.print ("Update email settings for " ++ w ++ " ..."),
         Event.request "PATCH" (ZOOM_API_BASE_URL ++ "/webinars/" ++ w)
           email_settings_payload
           (Account.mk tok (Yaml.list (ws.map Yaml.str))).headers,
         Event.print (toString (s1 (ZOOM_API_BASE_URL ++ "/webinars/" ++ w))),
         Event.sleep 5]).flatten) ∧
    (okEvents (update_qa s1
        (Account.mk tok (Yaml.list (ws.map Yaml.str)))) =
      (ws.map fun w =>
        [Event.print ("Update q&a settings for " ++ w ++ " ..."),
         Event.request "PATCH" (ZOOM_API_BASE_URL ++ "/webinars/" ++ w)
           qa_settings_payload
           (Account.mk tok (Yaml.list (ws.map Yaml.str))).headers,
         Event.print (toString (s1 (ZOOM_API_BASE_URL ++ "/webinars/" ++ w))),
         Event.sleep 5]).flatten) ∧
    (requestsOf (okEvents (update_cots2021_registration_questions s1
        (Account.mk tok (Yaml.list (ws.map Yaml.str))))) =
      requestsOf (okEvents (update_cots2021_registration_questions s2
        (Account.mk tok (Yaml.list (ws.map Yaml.str)))))) ∧
    (requestsOf (okEvents (update_cots20201_email_settings s1
        (Account.mk tok (Yaml.list (ws.map Yaml.str))))) =
      requestsOf (okEvents (update_cots20201_email_settings s2
        (Account.mk tok (Yaml.list (ws.map Yaml.str)))))) ∧
    (requestsOf (okEvents (update_qa s1
        (Account.mk tok (Yaml.list (ws.map Yaml.str))))) =
      requestsOf (okEvents (update_qa s2
        (Account.mk tok (Yaml.list (ws.map Yaml.str)))))) := by
  refine ⟨?_, ?_, ?_, ?_, ?_, ?_⟩
  · rw [update_reg_on_list]
    show patchLoop _ _ _ _ _ _ = _
    rw [patchLoop_flatten, List.map_map]
    exact congrArg List.flatten (List.map_congr_left fun w hw => rfl)
  · rw [update_email_on_list]
    show patchLoop _ _ _ _ _ _ = _
    rw [patchLoop_flatten, List.map_map]
    exact congrArg List.flatten (List.map_congr_left fun w hw => rfl)
  · rw [update_qa_on_list]
    show patchLoop _ _ _ _ _ _ = _
    rw [patchLoop_flatten, List.map_map]
    exact congrArg List.flatten (List.map_congr_left fun w hw => rfl)
  · rw [update_reg_on_list, update_reg_on_list]
    show requestsOf (patchLoop _ _ _ _ _ _) = requestsOf (patchLoop _ _ _ _ _ _)
    rw [patchLoop_requests, patchLoop_requests]
  · rw [update_email_on_list, update_email_on_list]
    show requestsOf (patchLoop _ _ _ _ _ _) = requestsOf (patchLoop _ _ _ _ _ _)
    rw [patchLoop_requests, patchLoop_requests]
  · rw [update_qa_on_list, update_qa_on_list]
    show requestsOf (patchLoop _ _ _ _ _ _) = requestsOf (patchLoop _ _ _ _ _ _)
    rw [patchLoop_requests, patchLoop_requests]

/-- First-match lookup among a JSON object's fields. -/
def jsonLookup (k : String) : List (String × Json) → Option Json
  | [] => none
  | kv :: rest => if kv.1 = k then some kv.2 else jsonLookup k rest

/-- The value of field `k` of a JSON object (`none` on non-objects). -/
def Json.getField (j : Json) (k : String) : Option Json :=
  match j with
  | .obj kvs => jsonLookup k kvs
  | _ => none

theorem patchLoop_body (p u : String → String) (pay : Json)
    (h : List (String × String)) (s : String → Int) (wids : List Yaml) :
    ∀ e ∈ requestsOf (patchLoop p u pay h s wids), e.body = pay := by
  intro e he
  rw [patchLoop_requests] at he
  obtain ⟨w, -, rfl⟩ := List.mem_map.mp he
  rfl

theorem update_reg_body (statuses : String → Int) (a : Account) :
    ∀ e ∈ requestsOf (okEvents (update_cots2021_registration_questions statuses a)),
      e.body = registration_questions_payload := by
  intro e he
  unfold update_cots2021_registration_questions at he
  cases h : pyIter a.webinar_ids with
  | error err => rw [h] at he; exact absurd he (List.not_mem_nil e)
  | ok wids => rw [h] at he; exact patchLoop_body _ _ _ _ _ _ e he

theorem update_email_body (statuses : String → Int) (a : Account) :
    ∀ e ∈ requestsOf (okEvents (update_cots20201_email_settings statuses a)),
      e.body = email_settings_payload := by
  intro e he
  unfold update_cots20201_email_settings at he
  cases h : pyIter a.webinar_ids with
  | error err => rw [h] at he; exact absurd he (List.not_mem_nil e)
  | ok wids => rw [h] at he; exact patchLoop_body _ _ _ _ _ _ e he

theorem update_qa_body (statuses : String → Int) (a : Account) :
    ∀ e ∈ requestsOf (okEvents (update_qa statuses a)),
      e.body = qa_settings_payload := by
  intro e he
  unfold update_qa at he
  cases h : pyIter a.webinar_ids with
  | error err => rw [h] at he; exact absurd he (List.not_mem_nil e)
  | ok wids => rw [h] at he; exact patchLoop_body _ _ _ _ _ _ e he

/-- C2: for every webinar id and every account, each operation function
sends as request body exactly the fixed payload of that operation — the
registration-questions body carries the three required standard fields
last_name, org and job_title plus one required multiple-choice custom
question with 7 answer options, while the email and Q&A bodies equal the
documented JSON objects verbatim; no body depends on the id or account. -/
theorem C2_fixed_payloads (statuses : String → Int) (a : Account) :
    (∀ e ∈ requestsOf (okEvents (update_cots2021_registration_questions statuses a)),
        e.body = registration_questions_payload) ∧
    (∀ e ∈ requestsOf (okEvents (update_cots20201_email_settings statuses a)),
        e.body = email_settings_payload) ∧
    (∀ e ∈ requestsOf (okEvents (update_qa statuses a)),
        e.body = qa_settings_payload) ∧
    email_settings_payload =
      Json.obj [("settings", Json.obj
        [("attendees_and_panelists_reminder_email_notification", Json.obj
           [("enable", Json.bool true), ("type", Json.num 7)])])] ∧
    qa_settings_payload =
      Json.obj [("settings", Json.obj
        [("question_and_answer", Json.obj
           [("enable", Json.bool true),
            ("allow_anonymous_questions", Json.bool false),
            ("answer_questions", Json.str "all"),
            ("attendees_can_upvote", Json.bool true),
            ("attendees_can_comment", Json.bool true)])])] ∧
    (∃ qs cqs : List Json,
      registration_questions_payload.getField "questions" = some (Json.arr qs) ∧
      qs.map (fun q => q.getField "field_name") =
        [some (Json.str "last_name"), some (Json.str "org"),
         some (Json.str "job_title")] ∧
      (∀ q ∈ qs, q.getField "required" = some (Json.bool true)) ∧
      registration_questions_payload.getField "custom_questions" =
        some (Json.arr cqs) ∧
      cqs.length = 1 ∧
      ∀ c ∈ cqs,
        c.getField "type" = some (Json.str "multiple") ∧
        c.getField "required" = some (Json.bool true) ∧
        ∃ ans : List Json,
          c.getField "answers" = some (Json.arr ans) ∧ ans.length = 7) := by
  refine ⟨update_reg_body statuses a, update_email_body statuses a,
    update_qa_body statuses a, rfl, rfl, ?_⟩
  refine ⟨[Json.obj [("field_name", Json.str "last_name"), ("required", Json.bool true)],
           Json.obj [("field_name", Json.str "org"), ("required", Json.bool true)],
           Json.obj [("field_name", Json.str "job_title"), ("required", Json.bool true)]],
          [Json.obj
            [("title", Json.str "Where do you learn about COTS 2021?"),
             ("type", Json.str "multiple"),
             ("required", Json.bool true),
             ("answers", Json.arr
               [Json.str "Facebook", Json.str "Instagram", Json.str "Twitter",
                Json.str "Email", Json.str "Newsletters", Json.str "Friends",
                Json.str "Other"])]],
          rfl, rfl, ?_, rfl, rfl, ?_⟩
  · intro q hq
    simp only [List.mem_cons, List.not_mem_nil, or_false] at hq
    rcases hq with rfl | rfl | rfl <;> rfl
  · intro c hc
    simp only [List.mem_cons, List.not_mem_nil, or_false] at hc
    rcases hc with rfl
    exact ⟨rfl, rfl, _, rfl, rfl⟩

/-- C2 witness: on a concrete account with one webinar id, the single email
request's body is the fixed email payload. -/
theorem C2_fixed_payloads_witness :
    (Event.request "PATCH" (ZOOM_API_BASE_URL ++ "/webinars/" ++ "111")
        email_settings_payload
        (Account.mk (Yaml.str "t") (Yaml.list [Yaml.str "111"])).headers).body =
      email_settings_payload :=
  (C2_fixed_payloads (fun _ => 200)
      (Account.mk (Yaml.str "t") (Yaml.list [Yaml.str "111"]))).2.1
    _ (List.Mem.head _)

theorem bind_ok_eq {ε α β : Type} (x : α) (f : α → Except ε β) :
    (Except.ok x >>= f) = f x := rfl

theorem bind_error_eq {ε α β : Type} (e : ε) (f : α → Except ε β) :
    (Except.error e >>= f : Except ε β) = Except.error e := rfl

/-- Whether a parsed YAML value is a mapping containing key `k`. -/
def hasKeyB (k : String) : Yaml → Bool
  | .map kvs => kvs.any fun kv => kv.1 == k
  | _ => false

/-- Whether a parsed record would survive the loader's field extraction:
a mapping containing both the `token` and the `webinar-ids` key. -/
def goodRecord (x : Yaml) : Bool :=
  hasKeyB "token" x && hasKeyB "webinar-ids" x

theorem assocLookup_eq_none (k : String) (kvs : List (String × Yaml))
    (h : (kvs.any fun kv => kv.1 == k) = false) : assocLookup k kvs = none := by
  induction kvs with
  | nil => rfl
  | cons kv rest ih =>
    simp only [List.any_cons, Bool.or_eq_false_iff, beq_eq_false_iff_ne] at h
    rw [assocLookup, if_neg h.1]
    exact ih (by simpa using h.2)

theorem assocLookup_isSome (k : String) (kvs : List (String × Yaml))
    (h : (kvs.any fun kv => kv.1 == k) = true) :
    ∃ v, assocLookup k kvs = some v := by
  induction kvs with
  | nil => simp at h
  | cons kv rest ih =>
    rw [assocLookup]
    by_cases hk : kv.1 = k
    · exact ⟨kv.2, if_pos hk⟩
    · rw [if_neg hk]
      refine ih ?_
      simp only [List.any_cons, Bool.or_eq_true, beq_iff_eq] at h
      rcases h with h | h
      · exact absurd h hk
      · exact h

theorem pyGetItem_ok_of_hasKey (x : Yaml) (k : String)
    (h : hasKeyB k x = true) : ∃ v, pyGetItem x k = .ok v := by
  cases x with
  | map kvs =>
    obtain ⟨v, hv⟩ := assocLookup_isSome k kvs (by simpa [hasKeyB] using h)
    exact ⟨v, by simp [pyGetItem, hv]⟩
  | null => simp [hasKeyB] at h
  | bool b => simp [hasKeyB] at h
  | int n => simp [hasKeyB] at h
  | str s => simp [hasKeyB] at h
  | list xs => simp [hasKeyB] at h

theorem accountsOf_error_head (x : Yaml) (rest : List Yaml)
    (h : goodRecord x = false) : ∃ e, accountsOf (x :: rest) = .error e := by
  cases x with
  | map kvs =>
    unfold goodRecord at h
    cases htok : hasKeyB "token" (Yaml.map kvs) with
    | false =>
      have hn : assocLookup "token" kvs = none :=
        assocLookup_eq_none _ _ (by simpa [hasKeyB] using htok)
      exact ⟨.keyError "token",
        by simp [accountsOf, pyGetItem, hn, bind_error_eq]⟩
    | true =>
      have hw : hasKeyB "webinar-ids" (Yaml.map kvs) = false := by
        rw [htok] at h; simpa using h
      obtain ⟨v, hv⟩ := assocLookup_isSome "token" kvs (by simpa [hasKeyB] using htok)
      have hwn : assocLookup "webinar-ids" kvs = none :=
        assocLookup_eq_none _ _ (by simpa [hasKeyB] using hw)
      exact ⟨.keyError "webinar-ids",
        by simp [accountsOf, hv, pyGetItem, hwn, bind_ok_eq, bind_error_eq]⟩
  | null =>
    exact ⟨.typeError "NoneType object is not subscriptable",
      by simp [accountsOf, pyGetItem, bind_error_eq]⟩
  | bool b =>
    exact ⟨.typeError "bool object is not subscriptable",
      by simp [accountsOf, pyGetItem, bind_error_eq]⟩
  | int n =>
    exact ⟨.typeError "int object is not subscriptable",
      by simp [accountsOf, pyGetItem, bind_error_eq]⟩
  | str s =>
    exact ⟨.typeError "string indices must be integers",
      by simp [accountsOf, pyGetItem, bind_error_eq]⟩
  | list xs =>
    exact ⟨.typeError "list indices must be integers or slices, not str",
      by simp [accountsOf, pyGetItem, bind_error_eq]⟩

theorem accountsOf_error_of_bad (xs : List Yaml)
    (h : ∃ x ∈ xs, goodRecord x = false) : ∃ e, accountsOf xs = .error e := by
  induction xs with
  | nil =>
    obtain ⟨x, hx, -⟩ := h
    exact absurd hx (List.not_mem_nil x)
  | cons y rest ih =>
    obtain ⟨x, hx, hbad⟩ := h
    rcases List.mem_cons.mp hx with rfl | hxr
    · exact accountsOf_error_head x rest hbad
    · cases hy : goodRecord y with
      | false => exact accountsOf_error_head y rest hy
      | true =>
        obtain ⟨e, he⟩ := ih ⟨x, hxr, hbad⟩
        rw [goodRecord, Bool.and_eq_true] at hy
        obtain ⟨v1, h1⟩ := pyGetItem_ok_of_hasKey y "token" hy.1
        obtain ⟨v2, h2⟩ := pyGetItem_ok_of_hasKey y "webinar-ids" hy.2
        exact ⟨e, by simp [accountsOf, h1, h2, he, bind_ok_eq, bind_error_eq]⟩

/-- C4 counterexample: two parsed configuration texts that are not of the
expected structure — a record whose token is a number and whose webinar-ids
is a boolean, and a document that is the empty string scalar — are accepted
by the loader without any error. -/
theorem C4_counterexample :
    Account.from_yaml_text
        (Yaml.list [Yaml.map [("token", Yaml.int 42), ("webinar-ids", Yaml.bool true)]]) =
      Except.ok [Account.mk (Yaml.int 42) (Yaml.bool true)] ∧
    Account.from_yaml_text (Yaml.str "") = Except.ok [] := ⟨rfl, rfl⟩

/-- C4 amended: the loader fails with an error when the parsed result is
not iterable (null, a boolean or a number), or when some record of a parsed
sequence is not a mapping containing both the token and the webinar-ids
key; it performs no validation of the field values' types, and a
non-sequence document with no usable elements (such as an empty string) is
accepted as zero accounts. -/
theorem C4_amended_failures :
    (∀ xs : List Yaml, (∃ x ∈ xs, goodRecord x = false) →
      ∃ e, Account.from_yaml_text (Yaml.list xs) = Except.error e) ∧
    (∃ e, Account.from_yaml_text Yaml.null = Except.error e) ∧
    (∀ b : Bool, ∃ e, Account.from_yaml_text (Yaml.bool b) = Except.error e) ∧
    (∀ n : Int, ∃ e, Account.from_yaml_text (Yaml.int n) = Except.error e) := by
  refine ⟨?_, ⟨_, rfl⟩, fun b => ⟨_, rfl⟩, fun n => ⟨_, rfl⟩⟩
  intro xs h
  rw [from_yaml_text_list]
  exact accountsOf_error_of_bad xs h

/-- C4 witness: a record lacking the webinar-ids field makes the loader
fail. -/
theorem C4_amended_failures_witness :
    ∃ e, Account.from_yaml_text (Yaml.list [Yaml.map [("token", Yaml.str "t")]]) =
      Except.error e :=
  C4_amended_failures.1 [Yaml.map [("token", Yaml.str "t")]]
    ⟨Yaml.map [("token", Yaml.str "t")], List.Mem.head _, rfl⟩

/-- C10 witness: the null document is in particular not accepted as an
empty account list. -/
theorem C10_null_config_witness :
    Account.from_yaml_text Yaml.null ≠ Except.ok [] :=
  C10_null_config.2 []
